import Mathlib

/-!
Shallow embedding of the entity-resolution cache layer of `crm_mcp`
(`src/crm_mcp/opp.py`, class `EntityCache`), together with theorems
settling the behavioural claims about it.

Modelling conventions:
* A Python value that is either a string or `None` is modelled by `PyVal`.
* Wall-clock time (`datetime.now()`) is modelled by a rational number `now`
  measured in hours, so that `timedelta(hours=CACHE_EXPIRY_HOURS)` is the
  rational constant `176` and sub-hour instants remain representable.
* The persisted-and-in-memory cache table (`self.cache_data`) is modelled as a
  function from string keys to optional entries.  `_save_cache` only mirrors
  the table to disk and has no behaviour visible to the claims, so it is not
  modelled separately.
* The HTTP layer (`requests.get` plus `response.json()`) is modelled by an
  oracle value describing the outcome of the one request an operation makes:
  either an exception was raised anywhere inside the `try` block, or a
  response with a status code and the relevant decoded fields came back.
* Python's `entity_id[:8]` slices code points, modelled by `pyTake 8` on the
  string's character list; `s.startswith(t)` is list prefix on characters.
* A cache entry loaded from JSON is a dict whose `timestamp` field may be
  absent or fail `datetime.fromisoformat`; `timestamp = Option.none` also
  covers the Python-falsy entry (empty dict / `null`), since the guard
  `not cache_entry or 'timestamp' not in cache_entry` returns `False` in
  exactly the same way for all of these.  Every entry the code itself writes
  has both a `name` and a parseable `timestamp`.
-/

namespace CrmMcp

/-- A Python value that is either `None` or a string. -/
inductive PyVal where
  | none
  | str (s : String)
  deriving DecidableEq, Repr

/-- Python truthiness of such a value: `None` and `""` are falsy. -/
def pyTruthy : PyVal → Bool
  | .none => false
  | .str s => !(s = "")

/-- The underlying string of a `PyVal` (`""` for `None`); used only to state
string-shaped facts about results that are known to be strings. -/
def pyStr : PyVal → String
  | .none => ""
  | .str s => s

/-- Python `s[:n]`: the first `n` code points of `s`. -/
def pyTake (n : Nat) (s : String) : String := String.mk (s.data.take n)

/-- Python `s.startswith(pre)`. -/
def pyStartsWith (s pre : String) : Bool := pre.data.isPrefixOf s.data

/-- `needle` occurs as a contiguous substring of `hay` (code-point level). -/
def strContainsP (hay needle : String) : Prop := needle.data <:+: hay.data

instance (hay needle : String) : Decidable (strContainsP hay needle) :=
  List.decidableInfix needle.data hay.data

/-- The `timestamp` field of a cache entry: either a string that
`datetime.fromisoformat` rejects, or one parsing to the instant `t`. -/
inductive TimeField where
  | bad
  | iso (t : ℚ)
  deriving DecidableEq

/-- One record of the cache table: the `name` field and the optional
`timestamp` field (see the modelling conventions above). -/
structure CacheEntry where
  name : PyVal
  timestamp : Option TimeField
  deriving DecidableEq

/-- The cache table `self.cache_data`, keyed by `f"{entity_type}_{entity_id}"`. -/
def Table := String → Option CacheEntry

/-- `self.cache_data[key] = value`. -/
def Table.insertK (m : Table) (k : String) (v : CacheEntry) : Table :=
  fun q => if q = k then some v else m q

/-- `del self.cache_data[key]`. -/
def Table.eraseK (m : Table) (k : String) : Table :=
  fun q => if q = k then Option.none else m q

/-- The empty table. -/
def Table.empty : Table := fun _ => Option.none

/-- `CACHE_EXPIRY_HOURS = 176`, in hours. -/
def CACHE_EXPIRY_HOURS : ℚ := 176

/-- `EntityCache._is_cache_entry_valid`: falsy entry or missing `timestamp`
give `False`; a `fromisoformat` failure gives `False`; otherwise the saved
instant must be strictly later than `now - 176h`. -/
def _is_cache_entry_valid (now : ℚ) (e : CacheEntry) : Bool :=
  match e.timestamp with
  | Option.none => false
  | some .bad => false
  | some (.iso saved) => decide (saved > now - CACHE_EXPIRY_HOURS)

/-- Outcome of the single HTTP GET made by `_fetch_from_crm`: an exception
anywhere in the `try` block, or a response carrying its status code and the
value of the configured name field in the decoded JSON body (`Option.none`
when the field is absent, so `data.get` falls back; `some v` when present
with value `v`, which may itself be JSON `null`, i.e. `PyVal.none`). -/
inductive HttpOutcome where
  | exn
  | resp (status : Nat) (nameField : Option PyVal)
  deriving DecidableEq

/-- One row of `entity_configs` in `_fetch_from_crm`. -/
structure FetchConfig where
  endpoint : String
  nameField : String
  deriving DecidableEq

/-- The `entity_configs` dict of `_fetch_from_crm`. -/
def entity_configs (entity_type : String) : Option FetchConfig :=
  if entity_type = "account" then some ⟨"accounts", "name"⟩
  else if entity_type = "contact" then some ⟨"contacts", "fullname"⟩
  else if entity_type = "user" then some ⟨"systemusers", "fullname"⟩
  else if entity_type = "division" then some ⟨"businessunits", "name"⟩
  else if entity_type = "service" then some ⟨"actum_proposedservices", "actum_name"⟩
  else Option.none

/-- `EntityCache._fetch_from_crm`, with the HTTP layer abstracted into the
outcome `o` of its one request.  Mirrors the source line by line: unknown
type short-circuits before any request; status 200 reads the name field with
a `"No name (id...)"` default; 404 and other statuses and exceptions produce
the corresponding fallback strings with the `entity_id[:8]` prefix. -/
def _fetch_from_crm (o : HttpOutcome) (entity_type entity_id : String) : PyVal :=
  match entity_configs entity_type with
  | Option.none => .str ("Unknown type (" ++ entity_type ++ ")")
  | some _cfg =>
    match o with
    | .exn => .str ("Error (" ++ pyTake 8 entity_id ++ "...)")
    | .resp status nameField =>
      if status = 200 then
        match nameField with
        | some v => v
        | Option.none => .str ("No name (" ++ pyTake 8 entity_id ++ "...)")
      else if status = 404 then
        .str ("Not found (" ++ pyTake 8 entity_id ++ "...)")
      else
        .str ("Error " ++ toString status ++ " (" ++ pyTake 8 entity_id ++ "...)")

/-- `f"{entity_type}_{entity_id}"`. -/
def cacheKey (entity_type entity_id : String) : String :=
  entity_type ++ "_" ++ entity_id

/-- Result of `entity_lookup`: the returned name, the table afterwards, and
whether a remote fetch (`_fetch_from_crm`) was performed. -/
structure LookupOut where
  name : PyVal
  table : Table
  fetched : Bool

/-- `EntityCache.entity_lookup`.  Empty `entity_id` (Python-falsy; `None` is
modelled as `""`, both take the same branch) returns `'N/A'` untouched.  A
valid cached entry is returned with no fetch; an invalid one is deleted;
then the fetched value is stored with the current timestamp. -/
def entity_lookup (o : HttpOutcome) (now : ℚ) (table : Table)
    (entity_type entity_id : String) : LookupOut :=
  if entity_id = "" then ⟨.str "N/A", table, false⟩
  else
    let key := cacheKey entity_type entity_id
    match table key with
    | some e =>
      if _is_cache_entry_valid now e then ⟨e.name, table, false⟩
      else
        let table2 := table.eraseK key
        let nm := _fetch_from_crm o entity_type entity_id
        ⟨nm, table2.insertK key ⟨nm, some (.iso now)⟩, true⟩
    | Option.none =>
      let nm := _fetch_from_crm o entity_type entity_id
      ⟨nm, table.insertK key ⟨nm, some (.iso now)⟩, true⟩

/-- `name.startswith(('Unknown', 'Not found', 'Error'))`. -/
def startswithSentinel (s : String) : Bool :=
  pyStartsWith s "Unknown" || pyStartsWith s "Not found" || pyStartsWith s "Error"

/-- The guard `if name and not name.startswith(('Unknown', 'Not found',
'Error'))` of `get_customer_name`: truthy and not sentinel-prefixed. -/
def acceptAccount : PyVal → Bool
  | .none => false
  | .str s => !(s = "") && !(startswithSentinel s)

/-- Result of `get_customer_name`: the name, the table afterwards, and how
many remote fetches were performed in total. -/
structure CustOut where
  name : PyVal
  table : Table
  remoteCalls : Nat

/-- `EntityCache.get_customer_name`: `'N/A'` on falsy id, else account lookup
first, contact lookup if the account result fails the guard. -/
def get_customer_name (accO contO : HttpOutcome) (now : ℚ) (table : Table)
    (customer_id : String) : CustOut :=
  if customer_id = "" then ⟨.str "N/A", table, 0⟩
  else
    let r1 := entity_lookup accO now table "account" customer_id
    if acceptAccount r1.name then
      ⟨r1.name, r1.table, if r1.fetched then 1 else 0⟩
    else
      let r2 := entity_lookup contO now r1.table "contact" customer_id
      ⟨r2.name, r2.table,
        (if r1.fetched then 1 else 0) + (if r2.fetched then 1 else 0)⟩

/-- The two filters tried by `reverse_lookup`, in source order: the exact
`eq` filter, then the `contains` filter. -/
inductive FilterKind where
  | exact
  | contains_
  deriving DecidableEq, Repr

/-- One row of `entity_configs` in `reverse_lookup`. -/
structure RevConfig where
  endpoint : String
  nameField : String
  idField : String
  deriving DecidableEq

/-- The `entity_configs` dict of `reverse_lookup`: reverse lookup supports
only `user` and `division`. -/
def reverse_configs (entity_type : String) : Option RevConfig :=
  if entity_type = "user" then some ⟨"systemusers", "fullname", "systemuserid"⟩
  else if entity_type = "division" then some ⟨"businessunits", "name", "businessunitid"⟩
  else Option.none

/-- The `$filter` expression built for each attempt. -/
def filterExpr (cfg : RevConfig) (k : FilterKind) (search_name : String) : String :=
  match k with
  | .exact => cfg.nameField ++ " eq " ++ "\x27" ++ search_name ++ "\x27"
  | .contains_ => "contains(" ++ cfg.nameField ++ ", " ++ "\x27" ++ search_name ++ "\x27" ++ ")"

/-- The query parameters `reverse_lookup` sends for one attempt. -/
structure SearchParams where
  filter : String
  select : String
  top : Nat
  deriving DecidableEq

/-- The `params` dict of one `reverse_lookup` attempt (`$filter`, `$select`,
`$top: 1`). -/
def searchParams (cfg : RevConfig) (k : FilterKind) (search_name : String) : SearchParams :=
  ⟨filterExpr cfg k search_name, cfg.idField ++ "," ++ cfg.nameField, 1⟩

/-- One record of the `value` array in a search response: the values of the
configured id and name fields (`result.get(...)`, so either may be absent,
modelled as `PyVal.none` like JSON `null`, which Python's `.get` also maps
to a falsy value). -/
structure SearchRow where
  idVal : PyVal
  nameVal : PyVal
  deriving DecidableEq

/-- Outcome of one search request: an exception inside the `try`, or a
response with status code and decoded `value` rows. -/
inductive SearchOutcome where
  | exn
  | resp (status : Nat) (rows : List SearchRow)
  deriving DecidableEq

/-- How one iteration of the `reverse_lookup` loop body ends: `found` when a
200 response has a first row with a truthy id (the function returns);
`next` when the iteration falls through to the next filter; `aborted` when
an exception hits the `except` clause and `break`s the loop. -/
inductive StepResult where
  | found (id : String) (nm : PyVal)
  | next
  | aborted
  deriving DecidableEq

/-- One iteration of the `reverse_lookup` loop over a given attempt outcome:
non-200 statuses, empty `value` arrays, and falsy ids all fall through. -/
def attemptStep (o : SearchOutcome) : StepResult :=
  match o with
  | .exn => .aborted
  | .resp status rows =>
    if status = 200 then
      match rows with
      | [] => .next
      | r :: _ =>
        match r.idVal with
        | .none => .next
        | .str i => if i = "" then .next else .found i r.nameVal
    else .next

/-- Result of `reverse_lookup`: the optional id, the table afterwards, and
the list of filters for which a request was actually issued, in order. -/
structure RevOut where
  id : Option String
  table : Table
  attempts : List FilterKind

/-- `EntityCache.reverse_lookup`.  Empty name and unsupported types return
`None` with no request.  Then the loop tries the exact filter, and the
contains filter only if the exact iteration fell through; a `found`
iteration caches `(id, name)` with the current timestamp and returns the
id; an exception `break`s out and `None` is returned. -/
def reverse_lookup (searchO : FilterKind → SearchOutcome) (now : ℚ) (table : Table)
    (entity_type search_name : String) : RevOut :=
  if search_name = "" then ⟨Option.none, table, []⟩
  else
    match reverse_configs entity_type with
    | Option.none => ⟨Option.none, table, []⟩
    | some _cfg =>
      match attemptStep (searchO .exact) with
      | .found i nm =>
        ⟨some i, table.insertK (cacheKey entity_type i) ⟨nm, some (.iso now)⟩, [.exact]⟩
      | .aborted => ⟨Option.none, table, [.exact]⟩
      | .next =>
        match attemptStep (searchO .contains_) with
        | .found i nm =>
          ⟨some i, table.insertK (cacheKey entity_type i) ⟨nm, some (.iso now)⟩,
            [.exact, .contains_]⟩
        | .aborted => ⟨Option.none, table, [.exact, .contains_]⟩
        | .next => ⟨Option.none, table, [.exact, .contains_]⟩

/-- Classifies the request outcomes on which `_fetch_from_crm` produces a
fallback string instead of a fetched name: an unsupported entity type, an
exception, a non-200 status, or a 200 body missing the configured name
field. -/
def fetchFailure (entity_type : String) (o : HttpOutcome) : Bool :=
  !(entity_configs entity_type).isSome ||
    match o with
    | .exn => true
    | .resp status nameField => !(status = 200) || nameField.isNone

end CrmMcp

namespace CrmMcp

/-- The middle component of a three-part concatenation is a substring. -/
lemma strContains_mid (a b c : String) : strContainsP (a ++ b ++ c) b :=
  ⟨a.data, c.data, by simp [String.data_append]⟩

/-- An entry freshly written with the current timestamp is valid. -/
lemma valid_fresh (now : ℚ) (nm : PyVal) :
    _is_cache_entry_valid now ⟨nm, some (.iso now)⟩ = true := by
  simp only [_is_cache_entry_valid, decide_eq_true_eq, gt_iff_lt, CACHE_EXPIRY_HOURS]
  linarith

/-- Validity of a cache entry, characterised: a parseable timestamp strictly
younger than the expiry window. -/
lemma valid_iff (now : ℚ) (e : CacheEntry) :
    _is_cache_entry_valid now e = true ↔
      ∃ t, e.timestamp = some (.iso t) ∧ now - t < CACHE_EXPIRY_HOURS := by
  cases hts : e.timestamp with
  | none => simp [_is_cache_entry_valid, hts]
  | some tf =>
    cases tf with
    | bad => simp [_is_cache_entry_valid, hts]
    | iso t =>
      simp only [_is_cache_entry_valid, hts, decide_eq_true_eq, gt_iff_lt,
        Option.some.injEq, TimeField.iso.injEq]
      constructor
      · intro h1
        exact ⟨t, rfl, by linarith⟩
      · rintro ⟨t2, ht2, h2⟩
        cases ht2
        linarith

/-- `entity_lookup` on a cache hit whose entry is valid. -/
lemma entity_lookup_valid (o : HttpOutcome) (now : ℚ) (table : Table)
    (ty id : String) (e : CacheEntry) (hid : ¬ (id = ""))
    (he : table (cacheKey ty id) = some e)
    (hval : _is_cache_entry_valid now e = true) :
    entity_lookup o now table ty id = ⟨e.name, table, false⟩ := by
  simp [entity_lookup, hid, he, hval]

/-- `entity_lookup` on a cache hit whose entry is invalid: the entry is
deleted, a fetch happens, and the fetched value is stored. -/
lemma entity_lookup_invalid (o : HttpOutcome) (now : ℚ) (table : Table)
    (ty id : String) (e : CacheEntry) (hid : ¬ (id = ""))
    (he : table (cacheKey ty id) = some e)
    (hexp : _is_cache_entry_valid now e = false) :
    entity_lookup o now table ty id =
      ⟨_fetch_from_crm o ty id,
        (table.eraseK (cacheKey ty id)).insertK (cacheKey ty id)
          ⟨_fetch_from_crm o ty id, some (.iso now)⟩, true⟩ := by
  simp [entity_lookup, hid, he, hexp]

/-- `entity_lookup` on a cache miss: a fetch happens and is stored. -/
lemma entity_lookup_miss (o : HttpOutcome) (now : ℚ) (table : Table)
    (ty id : String) (hid : ¬ (id = ""))
    (he : table (cacheKey ty id) = Option.none) :
    entity_lookup o now table ty id =
      ⟨_fetch_from_crm o ty id,
        table.insertK (cacheKey ty id)
          ⟨_fetch_from_crm o ty id, some (.iso now)⟩, true⟩ := by
  simp [entity_lookup, hid, he]

/-- A `found` step always carries a truthy (non-empty) id. -/
lemma attemptStep_found_ne (o : SearchOutcome) (i : String) (nm : PyVal)
    (h : attemptStep o = .found i nm) : ¬ (i = "") := by
  cases o with
  | exn => simp [attemptStep] at h
  | resp status rows =>
    by_cases h200 : status = 200
    · cases rows with
      | nil => simp [attemptStep, h200] at h
      | cons r rest =>
        cases hr : r.idVal with
        | none => simp [attemptStep, h200, hr] at h
        | str j =>
          by_cases hj : j = ""
          · simp [attemptStep, h200, hr, hj] at h
          · simp [attemptStep, h200, hr, hj] at h
            intro hi
            exact hj (h.1.trans hi)
    · simp [attemptStep, h200] at h

/-- Unfolding of `reverse_lookup` past its guards into the two-attempt loop. -/
lemma reverse_lookup_eq (searchO : FilterKind → SearchOutcome) (now : ℚ) (table : Table)
    (ty nm : String) (cfg : RevConfig)
    (hty : reverse_configs ty = some cfg) (hnm : ¬ (nm = "")) :
    reverse_lookup searchO now table ty nm =
      match attemptStep (searchO .exact) with
      | .found i n =>
        ⟨some i, table.insertK (cacheKey ty i) ⟨n, some (.iso now)⟩, [.exact]⟩
      | .aborted => ⟨Option.none, table, [.exact]⟩
      | .next =>
        match attemptStep (searchO .contains_) with
        | .found i n =>
          ⟨some i, table.insertK (cacheKey ty i) ⟨n, some (.iso now)⟩,
            [.exact, .contains_]⟩
        | .aborted => ⟨Option.none, table, [.exact, .contains_]⟩
        | .next => ⟨Option.none, table, [.exact, .contains_]⟩ := by
  simp [reverse_lookup, hnm, hty]

/-- The account result of `get_customer_name` passes the guard iff it is
truthy and not sentinel-prefixed. -/
lemma acceptAccount_eq (v : PyVal) :
    acceptAccount v = (pyTruthy v && !startswithSentinel (pyStr v)) := by
  cases v with
  | none => rfl
  | str s => rfl

/-- A falsy account result never passes the guard. -/
lemma acceptAccount_falsy (v : PyVal) (h : pyTruthy v = false) :
    acceptAccount v = false := by
  rw [acceptAccount_eq, h]
  rfl

/-- The `"No name (id...)"` fallback always passes the guard: it is a
non-empty string starting with none of the three sentinel prefixes. -/
lemma acceptAccount_noName (cid : String) :
    acceptAccount (.str ("No name (" ++ pyTake 8 cid ++ "...)")) = true := rfl

/-- Claim C1, counterexample: for an unsupported entity type the fallback of
`_fetch_from_crm` is `"Unknown type (<entity_type>)"` and does not carry the
truncated 8-character prefix of the entity id, contradicting the claim that
the unknown-type fallback carries that prefix. -/
theorem unknown_type_fallback_without_id_marker :
    _fetch_from_crm .exn "opportunity" "abcdefgh1234" = .str "Unknown type (opportunity)" ∧
    ¬ strContainsP (pyStr (_fetch_from_crm .exn "opportunity" "abcdefgh1234"))
        (pyTake 8 "abcdefgh1234") := by
  exact ⟨rfl, by decide⟩

/-- Claim C1, amended: the remote fetch of `resolve_name` never raises (it is
a total function of the request outcome), and on any failing outcome —
exception, 404, other non-200 status, or a 200 body missing the name field —
it returns a fallback string embedding the failure reason together with the
truncated 8-character prefix of the entity id; only the unknown-type fallback
instead embeds the entity type. -/
theorem fetch_failure_fallback_marker (entity_type entity_id : String) (o : HttpOutcome)
    (h : fetchFailure entity_type o = true) :
    strContainsP (pyStr (_fetch_from_crm o entity_type entity_id))
      (if (entity_configs entity_type).isSome then pyTake 8 entity_id else entity_type) := by
  cases hc : entity_configs entity_type with
  | none =>
    simp only [hc, Option.isSome_none, Bool.false_eq_true, if_false]
    show strContainsP (pyStr (_fetch_from_crm o entity_type entity_id)) entity_type
    unfold _fetch_from_crm
    rw [hc]
    exact strContains_mid "Unknown type (" entity_type ")"
  | some cfg =>
    simp only [hc, Option.isSome_some, if_true]
    cases o with
    | exn =>
      have hshape : _fetch_from_crm .exn entity_type entity_id =
          .str ("Error (" ++ pyTake 8 entity_id ++ "...)") := by
        unfold _fetch_from_crm
        rw [hc]
      rw [hshape]
      exact strContains_mid "Error (" (pyTake 8 entity_id) "...)"
    | resp status nameField =>
      by_cases h200 : status = 200
      · have hnf : nameField = Option.none := by
          simp [fetchFailure, hc, h200] at h
          exact h
        subst hnf
        subst h200
        have hshape : _fetch_from_crm (.resp 200 Option.none) entity_type entity_id =
            .str ("No name (" ++ pyTake 8 entity_id ++ "...)") := by
          unfold _fetch_from_crm
          rw [hc]
          exact rfl
        rw [hshape]
        exact strContains_mid "No name (" (pyTake 8 entity_id) "...)"
      · by_cases h404 : status = 404
        · subst h404
          have hshape : _fetch_from_crm (.resp 404 nameField) entity_type entity_id =
              .str ("Not found (" ++ pyTake 8 entity_id ++ "...)") := by
            unfold _fetch_from_crm
            rw [hc]
            exact rfl
          rw [hshape]
          exact strContains_mid "Not found (" (pyTake 8 entity_id) "...)"
        · have hshape : _fetch_from_crm (.resp status nameField) entity_type entity_id =
              .str ("Error " ++ toString status ++ " (" ++ pyTake 8 entity_id ++ "...)") := by
            unfold _fetch_from_crm
            rw [hc]
            simp [h200, h404]
          rw [hshape]
          exact strContains_mid ("Error " ++ toString status ++ " (")
            (pyTake 8 entity_id) "...)"

/-- Witness for C1's amended theorem at a concrete failing fetch. -/
theorem fetch_failure_fallback_marker_witness :
    strContainsP "Not found (entity01...)" "entity01" :=
  fetch_failure_fallback_marker "account" "entity01" (.resp 404 Option.none) (by decide)

/-- Claim C2, counterexample: when the account lookup yields the empty string
(a 200 response whose name field is `""`), that result does not begin with
any sentinel prefix, yet it is not returned — the contact lookup result
`"Bob"` is returned instead. -/
theorem empty_account_result_not_returned :
    (entity_lookup (.resp 200 (some (.str ""))) 0 Table.empty "account" "c1").name
      = .str "" ∧
    startswithSentinel "" = false ∧
    (get_customer_name (.resp 200 (some (.str ""))) (.resp 200 (some (.str "Bob")))
        0 Table.empty "c1").name = .str "Bob" ∧
    ¬ (PyVal.str "Bob" = .str "") := by
  exact ⟨rfl, rfl, rfl, by decide⟩

/-- Claim C2, amended: for non-empty `customer_id`, `get_customer_name`
returns the account result iff that result is truthy (neither `None` nor
empty) and does not begin with one of the sentinel prefixes `"Unknown"`,
`"Not found"`, `"Error"`; otherwise the contact lookup result is returned
unconditionally, be it a success or a failure string. -/
theorem customer_name_fallback_condition (accO contO : HttpOutcome) (now : ℚ)
    (table : Table) (customer_id : String) (h : ¬ (customer_id = "")) :
    (pyTruthy (entity_lookup accO now table "account" customer_id).name = true →
      startswithSentinel (pyStr (entity_lookup accO now table "account" customer_id).name)
        = false →
      (get_customer_name accO contO now table customer_id).name =
        (entity_lookup accO now table "account" customer_id).name) ∧
    (pyTruthy (entity_lookup accO now table "account" customer_id).name = false ∨
      startswithSentinel (pyStr (entity_lookup accO now table "account" customer_id).name)
        = true →
      (get_customer_name accO contO now table customer_id).name =
        (entity_lookup contO now (entity_lookup accO now table "account" customer_id).table
          "contact" customer_id).name) := by
  constructor
  · intro h1 h2
    have hacc : acceptAccount (entity_lookup accO now table "account" customer_id).name
        = true := by
      rw [acceptAccount_eq, h1, h2]
      rfl
    simp [get_customer_name, h, hacc]
  · intro hor
    have hacc : acceptAccount (entity_lookup accO now table "account" customer_id).name
        = false := by
      rw [acceptAccount_eq]
      cases hor with
      | inl h1 => rw [h1]; rfl
      | inr h2 => rw [h2]; simp
    simp [get_customer_name, h, hacc]

/-- Witness for C2's amended theorem: an accepted account result is returned. -/
theorem customer_name_fallback_condition_witness :
    (get_customer_name (.resp 200 (some (.str "Alice"))) .exn 0 Table.empty "c2").name
      = .str "Alice" :=
  (customer_name_fallback_condition (.resp 200 (some (.str "Alice"))) .exn 0 Table.empty
    "c2" (by decide)).1 rfl rfl

/-- Claim C3: a cache entry is valid iff `now - timestamp < 176` hours with
strict inequality (so an entry is invalid at exactly the expiry boundary),
and on an expired (invalid) hit `entity_lookup` never returns the cached
name: it performs the remote fetch, returns the fetched value, and the
expired entry has been deleted (the final table is the deletion of the old
key followed by the write of the fresh entry). -/
theorem cache_validity_strict_and_expiry (now : ℚ) (e : CacheEntry) (o : HttpOutcome)
    (table : Table) (entity_type entity_id : String)
    (hid : ¬ (entity_id = ""))
    (he : table (cacheKey entity_type entity_id) = some e)
    (hexp : _is_cache_entry_valid now e = false) :
    (∀ (now2 : ℚ) (e2 : CacheEntry),
      _is_cache_entry_valid now2 e2 = true ↔
        ∃ t, e2.timestamp = some (.iso t) ∧ now2 - t < CACHE_EXPIRY_HOURS) ∧
    (entity_lookup o now table entity_type entity_id).fetched = true ∧
    (entity_lookup o now table entity_type entity_id).name =
      _fetch_from_crm o entity_type entity_id ∧
    (entity_lookup o now table entity_type entity_id).table =
      (table.eraseK (cacheKey entity_type entity_id)).insertK (cacheKey entity_type entity_id)
        ⟨_fetch_from_crm o entity_type entity_id, some (.iso now)⟩ := by
  have hl := entity_lookup_invalid o now table entity_type entity_id e hid he hexp
  exact ⟨fun now2 e2 => valid_iff now2 e2, by rw [hl], by rw [hl], by rw [hl]⟩

/-- Concrete table for C3's witness: one entry written at time 0. -/
def c3Table : Table := Table.empty.insertK "user_u3" ⟨.str "Old", some (.iso 0)⟩

/-- Witness for C3 queried exactly at the expiry boundary (`now = 176`):
the boundary entry counts as expired and a fetch is made. -/
theorem cache_validity_strict_and_expiry_witness :
    (entity_lookup (.resp 404 Option.none) 176 c3Table "user" "u3").fetched = true ∧
    (entity_lookup (.resp 404 Option.none) 176 c3Table "user" "u3").name
      = .str "Not found (u3...)" := by
  have h := cache_validity_strict_and_expiry 176 ⟨.str "Old", some (.iso 0)⟩
    (.resp 404 Option.none) c3Table "user" "u3" (by decide) rfl
    (by simp only [_is_cache_entry_valid, CACHE_EXPIRY_HOURS]; norm_num)
  refine ⟨h.2.1, ?_⟩
  rw [h.2.2.1]
  rfl

/-- Claim C7: an empty (or absent, modelled identically) id makes
`entity_lookup` return `"N/A"` and `get_customer_name` return `"N/A"`, with
zero remote calls and the cache table unchanged. -/
theorem empty_id_returns_na (entity_type : String) (o accO contO : HttpOutcome)
    (now : ℚ) (table : Table) :
    entity_lookup o now table entity_type "" = ⟨.str "N/A", table, false⟩ ∧
    get_customer_name accO contO now table "" = ⟨.str "N/A", table, 0⟩ :=
  ⟨rfl, rfl⟩

/-- Claim C4: for a supported type and non-empty name, if the exact-match
attempt of `reverse_lookup` hits an exception the whole operation aborts —
only the exact request was issued, the table is untouched, and `None` is
returned without raising; and if the exact attempt fell through and the
contains attempt hits an exception, `None` is likewise returned without
raising. -/
theorem reverse_search_failure_aborts (searchO : FilterKind → SearchOutcome)
    (now : ℚ) (table : Table) (entity_type search_name : String) (cfg : RevConfig)
    (hty : reverse_configs entity_type = some cfg)
    (hname : ¬ (search_name = "")) :
    (searchO .exact = .exn →
      reverse_lookup searchO now table entity_type search_name =
        ⟨Option.none, table, [.exact]⟩) ∧
    (attemptStep (searchO .exact) = .next → searchO .contains_ = .exn →
      reverse_lookup searchO now table entity_type search_name =
        ⟨Option.none, table, [.exact, .contains_]⟩) := by
  have hrl := reverse_lookup_eq searchO now table entity_type search_name cfg hty hname
  constructor
  · intro hx
    rw [hrl, hx]
    exact rfl
  · intro h1 h2
    rw [hrl, h1, h2]
    exact rfl

/-- Witness for C4: an oracle that raises on every attempt. -/
theorem reverse_search_failure_aborts_witness :
    (reverse_lookup (fun _ => .exn) 0 Table.empty "user" "Jane").attempts
      = [FilterKind.exact] ∧
    (reverse_lookup (fun _ => .exn) 0 Table.empty "user" "Jane").id = Option.none := by
  have h := (reverse_search_failure_aborts (fun _ => .exn) 0 Table.empty "user" "Jane"
    ⟨"systemusers", "fullname", "systemuserid"⟩ rfl (by decide)).1 rfl
  exact ⟨congrArg RevOut.attempts h, congrArg RevOut.id h⟩

/-- Claim C5: for a supported type and non-empty name, both attempts of
`reverse_lookup` request at most one result (`$top = 1`); the exact filter
is tried first, and when it yields a usable result (a 200 response whose
first row carries a truthy id) that id wins — the contains request is never
issued; the contains filter is issued only when the exact attempt yielded no
result. -/
theorem reverse_exact_preferred_top1 (searchO : FilterKind → SearchOutcome)
    (now : ℚ) (table : Table) (entity_type search_name : String) (cfg : RevConfig)
    (hty : reverse_configs entity_type = some cfg)
    (hname : ¬ (search_name = "")) :
    (searchParams cfg .exact search_name).top = 1 ∧
    (searchParams cfg .contains_ search_name).top = 1 ∧
    (∀ i nm, attemptStep (searchO .exact) = .found i nm →
      reverse_lookup searchO now table entity_type search_name =
        ⟨some i, table.insertK (cacheKey entity_type i) ⟨nm, some (.iso now)⟩,
          [.exact]⟩) ∧
    (FilterKind.contains_ ∈ (reverse_lookup searchO now table entity_type search_name).attempts →
      attemptStep (searchO .exact) = .next) := by
  have hrl := reverse_lookup_eq searchO now table entity_type search_name cfg hty hname
  refine ⟨rfl, rfl, ?_, ?_⟩
  · intro i nm hfound
    rw [hrl, hfound]
  · intro hmem
    cases hstep : attemptStep (searchO .exact) with
    | found i nm =>
      rw [hrl, hstep] at hmem
      simp at hmem
    | next => rfl
    | aborted =>
      rw [hrl, hstep] at hmem
      simp at hmem

/-- Concrete oracle for C5's witness: both filters would match, exact wins. -/
def c5Oracle : FilterKind → SearchOutcome :=
  fun _ => .resp 200 [⟨.str "id5", .str "Jane"⟩]

/-- Witness for C5: the exact match's id is returned. -/
theorem reverse_exact_preferred_top1_witness :
    (reverse_lookup c5Oracle 0 Table.empty "user" "Jane").id = some "id5" ∧
    (reverse_lookup c5Oracle 0 Table.empty "user" "Jane").attempts
      = [FilterKind.exact] := by
  have h := (reverse_exact_preferred_top1 c5Oracle 0 Table.empty "user" "Jane"
    ⟨"systemusers", "fullname", "systemuserid"⟩ rfl (by decide)).2.2.1
    "id5" (.str "Jane") rfl
  exact ⟨congrArg RevOut.id h, congrArg RevOut.attempts h⟩

/-- Claim C6 (round-trip): if `reverse_lookup 'user'` finds a match and
returns id `i`, the table it produced holds an entry at key `user_i` written
with the current timestamp, and an immediately following `entity_lookup
'user' i` returns that entry's name — the display name matched by one of the
two attempts — from the cache, with no remote fetch and the table unchanged. -/
theorem reverse_then_forward_roundtrip (searchO : FilterKind → SearchOutcome)
    (fetchO : HttpOutcome) (now : ℚ) (table : Table) (search_name i : String)
    (e : CacheEntry)
    (hname : ¬ (search_name = ""))
    (hfound : (reverse_lookup searchO now table "user" search_name).id = some i)
    (he : (reverse_lookup searchO now table "user" search_name).table
        (cacheKey "user" i) = some e) :
    e.timestamp = some (.iso now) ∧
    entity_lookup fetchO now (reverse_lookup searchO now table "user" search_name).table
        "user" i =
      ⟨e.name, (reverse_lookup searchO now table "user" search_name).table, false⟩ ∧
    (attemptStep (searchO .exact) = .found i e.name ∨
      attemptStep (searchO .contains_) = .found i e.name) := by
  have hrl := reverse_lookup_eq searchO now table "user" search_name
    ⟨"systemusers", "fullname", "systemuserid"⟩ rfl hname
  cases hstep : attemptStep (searchO .exact) with
  | found j nm =>
    rw [hrl, hstep] at hfound he ⊢
    obtain rfl : i = j := by simpa using hfound.symm
    have hje : (⟨nm, some (.iso now)⟩ : CacheEntry) = e := by
      simpa [Table.insertK] using he
    subst hje
    have hid : ¬ (i = "") := attemptStep_found_ne _ _ _ hstep
    refine ⟨rfl, ?_, Or.inl rfl⟩
    exact entity_lookup_valid fetchO now _ "user" i _ hid
      (by simp [Table.insertK]) (valid_fresh now nm)
  | next =>
    cases hstep2 : attemptStep (searchO .contains_) with
    | found j nm =>
      rw [hrl, hstep, hstep2] at hfound he ⊢
      obtain rfl : i = j := by simpa using hfound.symm
      have hje : (⟨nm, some (.iso now)⟩ : CacheEntry) = e := by
        simpa [Table.insertK] using he
      subst hje
      have hid : ¬ (i = "") := attemptStep_found_ne _ _ _ hstep2
      refine ⟨rfl, ?_, Or.inr rfl⟩
      exact entity_lookup_valid fetchO now _ "user" i _ hid
        (by simp [Table.insertK]) (valid_fresh now nm)
    | next =>
      rw [hrl, hstep, hstep2] at hfound
      exact absurd hfound (by simp)
    | aborted =>
      rw [hrl, hstep, hstep2] at hfound
      exact absurd hfound (by simp)
  | aborted =>
    rw [hrl, hstep] at hfound
    exact absurd hfound (by simp)

/-- Concrete oracle for C6's witness. -/
def c6Oracle : FilterKind → SearchOutcome :=
  fun _ => .resp 200 [⟨.str "u6", .str "Jane Doe"⟩]

/-- Witness for C6: after the reverse lookup found `u6`, the forward lookup
returns `"Jane Doe"` with no remote fetch. -/
theorem reverse_then_forward_roundtrip_witness :
    (entity_lookup .exn 0 (reverse_lookup c6Oracle 0 Table.empty "user" "Jane Doe").table
      "user" "u6").name = .str "Jane Doe" ∧
    (entity_lookup .exn 0 (reverse_lookup c6Oracle 0 Table.empty "user" "Jane Doe").table
      "user" "u6").fetched = false := by
  have h := reverse_then_forward_roundtrip c6Oracle .exn 0 Table.empty "Jane Doe" "u6"
    ⟨.str "Jane Doe", some (.iso 0)⟩ (by decide) rfl rfl
  exact ⟨by rw [h.2.1], by rw [h.2.1]⟩

/-- Claim C8: an entity type unsupported for reverse lookup returns `None`
with no request issued and the table untouched; an empty search name does
the same for every type; and the supported types are exactly `user` and
`division`. -/
theorem reverse_lookup_unsupported_guards (searchO : FilterKind → SearchOutcome)
    (now : ℚ) (table : Table) (entity_type search_name : String)
    (hty : reverse_configs entity_type = Option.none)
    (hname : ¬ (search_name = "")) :
    reverse_lookup searchO now table entity_type search_name
      = ⟨Option.none, table, []⟩ ∧
    (∀ ty2, reverse_lookup searchO now table ty2 "" = ⟨Option.none, table, []⟩) ∧
    (∀ t, reverse_configs t = Option.none ↔ ¬ (t = "user" ∨ t = "division")) := by
  refine ⟨?_, fun ty2 => rfl, fun t => ?_⟩
  · simp [reverse_lookup, hname, hty]
  · constructor
    · intro hnone hor
      cases hor with
      | inl h1 => rw [h1] at hnone; simp [reverse_configs] at hnone
      | inr h2 => rw [h2] at hnone; simp [reverse_configs] at hnone
    · intro hn
      have h1 : ¬ (t = "user") := fun hh => hn (Or.inl hh)
      have h2 : ¬ (t = "division") := fun hh => hn (Or.inr hh)
      simp [reverse_configs, h1, h2]

/-- Witness for C8: a reverse lookup on `account` returns no match and makes
no request even though the oracle would answer. -/
theorem reverse_lookup_unsupported_guards_witness :
    reverse_lookup (fun _ => .resp 200 [⟨.str "a1", .str "Acme"⟩]) 0 Table.empty
      "account" "Acme" = ⟨Option.none, Table.empty, []⟩ :=
  (reverse_lookup_unsupported_guards (fun _ => .resp 200 [⟨.str "a1", .str "Acme"⟩])
    0 Table.empty "account" "Acme" rfl (by decide)).1

/-- Claim C9: the contact fallback of `get_customer_name` also triggers on a
falsy account result (`None` or `""`), not only on sentinel-prefixed ones;
conversely, the `"No name (id...)"` fallback produced by a 200 response
lacking the name field is truthy, starts with no sentinel prefix, and is
returned as the customer name with the contact lookup never attempted (the
result does not depend on the contact oracle). -/
theorem customer_falsy_fallthrough_and_noname (accO contO contO2 : HttpOutcome)
    (now : ℚ) (table : Table) (customer_id : String)
    (hid : ¬ (customer_id = "")) :
    (pyTruthy (entity_lookup accO now table "account" customer_id).name = false →
      (get_customer_name accO contO now table customer_id).name =
        (entity_lookup contO now (entity_lookup accO now table "account" customer_id).table
          "contact" customer_id).name) ∧
    (accO = .resp 200 Option.none →
      table (cacheKey "account" customer_id) = Option.none →
      (get_customer_name accO contO now table customer_id).name =
        .str ("No name (" ++ pyTake 8 customer_id ++ "...)") ∧
      startswithSentinel ("No name (" ++ pyTake 8 customer_id ++ "...)") = false ∧
      get_customer_name accO contO now table customer_id =
        get_customer_name accO contO2 now table customer_id) := by
  constructor
  · intro h1
    have hacc := acceptAccount_falsy _ h1
    simp [get_customer_name, hid, hacc]
  · intro hacc htab
    subst hacc
    have hm := entity_lookup_miss (.resp 200 Option.none) now table "account"
      customer_id hid htab
    have hf : _fetch_from_crm (.resp 200 Option.none) "account" customer_id
        = .str ("No name (" ++ pyTake 8 customer_id ++ "...)") := rfl
    have hsent : startswithSentinel ("No name (" ++ pyTake 8 customer_id ++ "...)")
        = false := rfl
    refine ⟨?_, hsent, ?_⟩
    · simp [get_customer_name, hid, hm, hf, acceptAccount_noName]
    · simp [get_customer_name, hid, hm, hf, acceptAccount_noName]

/-- Witness for C9 at a concrete missing-name response: the `"No name"`
fallback is returned as the customer name with two different contact
oracles. -/
theorem customer_falsy_fallthrough_and_noname_witness :
    (get_customer_name (.resp 200 Option.none) .exn 0 Table.empty "c9").name
      = .str "No name (c9...)" := by
  have h := (customer_falsy_fallthrough_and_noname (.resp 200 Option.none) .exn
    (.resp 500 Option.none) 0 Table.empty "c9" (by decide)).2 rfl rfl
  exact h.1

/-- Claim C10: validity checking is total and rejects malformed entries —
an entry that is empty or lacks a `timestamp` field (both modelled by
`timestamp = Option.none`) or whose timestamp string `fromisoformat`
rejects is invalid, and `entity_lookup` treats it exactly like an expired
entry: its cached name is never returned, the entry is deleted, and a fresh
remote fetch is performed and stored. -/
theorem malformed_entry_invalid_refetch (now : ℚ) (e : CacheEntry) (o : HttpOutcome)
    (table : Table) (entity_type entity_id : String)
    (hid : ¬ (entity_id = ""))
    (he : table (cacheKey entity_type entity_id) = some e)
    (hm : e.timestamp = Option.none ∨ e.timestamp = some .bad) :
    _is_cache_entry_valid now e = false ∧
    (entity_lookup o now table entity_type entity_id).name =
      _fetch_from_crm o entity_type entity_id ∧
    (entity_lookup o now table entity_type entity_id).fetched = true ∧
    (entity_lookup o now table entity_type entity_id).table =
      (table.eraseK (cacheKey entity_type entity_id)).insertK (cacheKey entity_type entity_id)
        ⟨_fetch_from_crm o entity_type entity_id, some (.iso now)⟩ := by
  have hexp : _is_cache_entry_valid now e = false := by
    cases hm with
    | inl hh => simp [_is_cache_entry_valid, hh]
    | inr hh => simp [_is_cache_entry_valid, hh]
  have hl := entity_lookup_invalid o now table entity_type entity_id e hid he hexp
  exact ⟨hexp, by rw [hl], by rw [hl], by rw [hl]⟩

/-- Concrete table for C10's witness: an entry with an unparseable timestamp. -/
def c10Table : Table := Table.empty.insertK "user_u10" ⟨.str "Stale", some .bad⟩

/-- Witness for C10: the malformed entry is bypassed and a fetch happens. -/
theorem malformed_entry_invalid_refetch_witness :
    (entity_lookup .exn 0 c10Table "user" "u10").fetched = true ∧
    (entity_lookup .exn 0 c10Table "user" "u10").name = .str "Error (u10...)" := by
  have h := malformed_entry_invalid_refetch 0 ⟨.str "Stale", some .bad⟩ .exn c10Table
    "user" "u10" (by decide) rfl (Or.inr rfl)
  refine ⟨h.2.2.1, ?_⟩
  rw [h.2.1]
  rfl

end CrmMcp
